import Mathlib

/-!
Verification of the libde265-rs decoder session layer.

This development shallowly embeds the safe wrapper code of the crate
(src/errors.rs, src/decoder.rs, src/image.rs) into Lean.  The underlying
native decoding engine (libde265) is an external collaborator reached only
through FFI; its raw return values are modelled as explicit inputs to the
wrapper functions, and where a claim depends on engine behaviour that the
specification documents (the decoded picture buffer, tag propagation), that
behaviour is modelled from the spec and marked as such in doc comments.
Machine integers: C `int` and Rust `i64`/`i8` values are modelled as `Int`;
Rust `u32`/`usize`/`u8` results as `Nat` (the source clamps to `≥ 0` before
every such cast, so no wrap-around arithmetic occurs).
-/

namespace De265

/-! ## Error taxonomy (src/errors.rs)

Numeric status codes of the native `de265_error` enumeration (from the
libde265 public header, re-exported by the bindings crate).  The wrapper
matches on these codes in `DeError.from_raw`. -/

def DE265_OK : Nat := 0
def DE265_ERROR_NO_SUCH_FILE : Nat := 1
def DE265_ERROR_COEFFICIENT_OUT_OF_IMAGE_BOUNDS : Nat := 2
def DE265_ERROR_CHECKSUM_MISMATCH : Nat := 3
def DE265_ERROR_CTB_OUTSIDE_IMAGE_AREA : Nat := 4
def DE265_ERROR_OUT_OF_MEMORY : Nat := 5
def DE265_ERROR_CODED_PARAMETER_OUT_OF_RANGE : Nat := 6
def DE265_ERROR_IMAGE_BUFFER_FULL : Nat := 7
def DE265_ERROR_CANNOT_START_THREADPOOL : Nat := 8
def DE265_ERROR_LIBRARY_INITIALIZATION_FAILED : Nat := 9
def DE265_ERROR_LIBRARY_NOT_INITIALIZED : Nat := 10
def DE265_ERROR_WAITING_FOR_INPUT_DATA : Nat := 11
def DE265_ERROR_CANNOT_PROCESS_SEI : Nat := 12
def DE265_ERROR_PARAMETER_PARSING : Nat := 13
def DE265_ERROR_NO_INITIAL_SLICE_HEADER : Nat := 14
def DE265_ERROR_PREMATURE_END_OF_SLICE : Nat := 15
def DE265_ERROR_UNSPECIFIED_DECODING_ERROR : Nat := 16
def DE265_ERROR_NOT_IMPLEMENTED_YET : Nat := 502

/-- The `DeError` enumeration of src/errors.rs: the closed set of hard
errors and soft warnings, plus the `Unknown(code)` fallback carrying the
unmapped native status code. -/
inductive DeError where
  | ErrorNoSuchFile
  | ErrorCoefficientOutOfImageBounds
  | ErrorChecksumMismatch
  | ErrorCtbOutsideImageArea
  | ErrorOutOfMemory
  | ErrorCodedParameterOutOfRange
  | ErrorImageBufferFull
  | ErrorCannotStartThreadpool
  | ErrorLibraryInitializationFailed
  | ErrorLibraryNotInitialized
  | ErrorWaitingForInputData
  | ErrorCannotProcessSei
  | ErrorParameterParsing
  | ErrorNoInitialSliceHeader
  | ErrorPrematureEndOfSlice
  | ErrorUnspecifiedDecodingError
  | ErrorNotImplementedYet
  | WarningNoWppCannotUseMultithreading
  | WarningWarningBufferFull
  | WarningPrematureEndOfSliceSegment
  | WarningIncorrectEntryPointOffset
  | WarningCtbOutsideImageArea
  | WarningSpsHeaderInvalid
  | WarningPpsHeaderInvalid
  | WarningSliceHeaderInvalid
  | WarningIncorrectMotionVectorScaling
  | WarningNonexistingPpsReferenced
  | WarningNonexistingSpsReferenced
  | WarningBothPredFlagsZero
  | WarningNonexistingReferencePictureAccessed
  | WarningNumMvpNotEqualToNumMvq
  | WarningNumberOfShortTermRefPicSetsOutOfRange
  | WarningShortTermRefPicSetOutOfRange
  | WarningFaultyReferencePictureList
  | WarningEossBitNotSet
  | WarningMaxNumRefPicsExceeded
  | WarningInvalidChromaFormat
  | WarningSliceSegmentAddressInvalid
  | WarningDependentSliceWithAddressZero
  | WarningNumberOfThreadsLimitedToMaximum
  | WarningNonExistingLtReferenceCandidateInSliceHeader
  | WarningCannotApplySaoOutOfMemory
  | WarningSpsMissingCannotDecodeSei
  | WarningCollocatedMotionVectorOutsideImageArea
  | WarningPcmBitDepthTooLarge
  | WarningReferenceImageBitDepthDoesNotMatch
  | WarningReferenceImageSizeDoesNotMatchSps
  | WarningChromaOfCurrentImageDoesNotMatchSps
  | WarningBitDepthOfCurrentImageDoesNotMatchSps
  | WarningReferenceImageChromaFormatDoesNotMatch
  | WarningInvalidSliceHeaderIndexAccess
  | Unknown (code : Nat)

/-- Function `DeError::from_raw` of src/errors.rs: maps a native status code to
`Ok(())` for `DE265_OK` and to the matching error variant otherwise, with
the `Unknown(code)` catch-all for unmapped codes.  Each literal pattern is
the numeric value of the correspondingly named native constant. -/
def DeError.from_raw (raw : Nat) : Except DeError Unit :=
  match raw with
  | 0 => .ok ()                                              -- DE265_OK
  | 1 => .error .ErrorNoSuchFile
  | 2 => .error .ErrorCoefficientOutOfImageBounds
  | 3 => .error .ErrorChecksumMismatch
  | 4 => .error .ErrorCtbOutsideImageArea
  | 5 => .error .ErrorOutOfMemory
  | 6 => .error .ErrorCodedParameterOutOfRange
  | 7 => .error .ErrorImageBufferFull
  | 8 => .error .ErrorCannotStartThreadpool
  | 9 => .error .ErrorLibraryInitializationFailed
  | 10 => .error .ErrorLibraryNotInitialized
  | 11 => .error .ErrorWaitingForInputData
  | 12 => .error .ErrorCannotProcessSei
  | 13 => .error .ErrorParameterParsing
  | 14 => .error .ErrorNoInitialSliceHeader
  | 15 => .error .ErrorPrematureEndOfSlice
  | 16 => .error .ErrorUnspecifiedDecodingError
  | 502 => .error .ErrorNotImplementedYet
  | 1000 => .error .WarningNoWppCannotUseMultithreading
  | 1001 => .error .WarningWarningBufferFull
  | 1002 => .error .WarningPrematureEndOfSliceSegment
  | 1003 => .error .WarningIncorrectEntryPointOffset
  | 1004 => .error .WarningCtbOutsideImageArea
  | 1005 => .error .WarningSpsHeaderInvalid
  | 1006 => .error .WarningPpsHeaderInvalid
  | 1007 => .error .WarningSliceHeaderInvalid
  | 1008 => .error .WarningIncorrectMotionVectorScaling
  | 1009 => .error .WarningNonexistingPpsReferenced
  | 1010 => .error .WarningNonexistingSpsReferenced
  | 1011 => .error .WarningBothPredFlagsZero
  | 1012 => .error .WarningNonexistingReferencePictureAccessed
  | 1013 => .error .WarningNumMvpNotEqualToNumMvq
  | 1014 => .error .WarningNumberOfShortTermRefPicSetsOutOfRange
  | 1015 => .error .WarningShortTermRefPicSetOutOfRange
  | 1016 => .error .WarningFaultyReferencePictureList
  | 1017 => .error .WarningEossBitNotSet
  | 1018 => .error .WarningMaxNumRefPicsExceeded
  | 1019 => .error .WarningInvalidChromaFormat
  | 1020 => .error .WarningSliceSegmentAddressInvalid
  | 1021 => .error .WarningDependentSliceWithAddressZero
  | 1022 => .error .WarningNumberOfThreadsLimitedToMaximum
  | 1023 => .error .WarningNonExistingLtReferenceCandidateInSliceHeader
  | 1024 => .error .WarningCannotApplySaoOutOfMemory
  | 1025 => .error .WarningSpsMissingCannotDecodeSei
  | 1026 => .error .WarningCollocatedMotionVectorOutsideImageArea
  | 1027 => .error .WarningPcmBitDepthTooLarge
  | 1028 => .error .WarningReferenceImageBitDepthDoesNotMatch
  | 1029 => .error .WarningReferenceImageSizeDoesNotMatchSps
  | 1030 => .error .WarningChromaOfCurrentImageDoesNotMatchSps
  | 1031 => .error .WarningBitDepthOfCurrentImageDoesNotMatchSps
  | 1032 => .error .WarningReferenceImageChromaFormatDoesNotMatch
  | 1033 => .error .WarningInvalidSliceHeaderIndexAccess
  | unknown => .error (.Unknown unknown)

/-- The list of native status codes that `DeError.from_raw` maps to a named
variant (every literal pattern of the match except the `DE265_OK` arm). -/
def mappedErrorCodes : List Nat :=
  [1, 2, 3, 4, 5, 6, 7, 8, 9, 10, 11, 12, 13, 14, 15, 16, 502,
   1000, 1001, 1002, 1003, 1004, 1005, 1006, 1007, 1008, 1009, 1010,
   1011, 1012, 1013, 1014, 1015, 1016, 1017, 1018, 1019, 1020, 1021,
   1022, 1023, 1024, 1025, 1026, 1027, 1028, 1029, 1030, 1031, 1032, 1033]

/-! ## Decode step (src/decoder.rs, `DecoderInput::decode`) -/

/-- The `DecodeResult` enumeration of src/decoder.rs. -/
inductive DecodeResult where
  | Done
  | HasImagesInBuffer
deriving DecidableEq, Repr

/-- Method `DecoderInput::decode` of src/decoder.rs.  The native `de265_decode`
writes a `more` flag (a C `int`) and returns a status code; the wrapper maps
the status through `DeError.from_raw` and, on success, reports
`HasImagesInBuffer` when `more > 0` and `Done` otherwise. -/
def decode (status : Nat) (more : Int) : Except DeError DecodeResult :=
  (DeError.from_raw status).map
    (fun _ => if more > 0 then .HasImagesInBuffer else .Done)

/-- The two error kinds that the doc comment of `DecoderInput::decode`
designates as retryable: `ErrorImageBufferFull` (extract images first) and
`ErrorWaitingForInputData` (insert more data first). -/
def DeError.retryableForDecode : DeError → Bool
  | .ErrorImageBufferFull => true
  | .ErrorWaitingForInputData => true
  | _ => false

/-! ## Session lifecycle (src/decoder.rs)

The crate shares one `DecoderContext` between the `DecoderInput` and the
`DecoderOutput` half through `Rc` (strong count 2 right after
`new_decoder`).  `impl Drop for DecoderContext` calls `de265_free_decoder`
on the non-null handle; `Rc` runs that drop exactly when the strong count
reaches zero.  An `Image` holds a shared borrow of the context obtained
through `DecoderOutput::next_picture(&mut self)`, so the borrow checker
forbids dropping the output half (and calling `next_picture` again) while
an `Image` is alive; `impl Drop for Image` calls
`de265_release_next_picture` once.  The state machine below embeds exactly
these rules: a step is `none` when the borrow checker or ownership rules of
the source reject the event. -/

structure SessionState where
  inputAlive : Bool
  outputAlive : Bool
  /-- Number of `Image` values currently borrowing the context. -/
  liveImages : Nat
  /-- Strong count of the `Rc<DecoderContext>`. -/
  refcount : Nat
  /-- Number of `de265_free_decoder` calls performed so far. -/
  handleFreed : Nat
  /-- Number of `de265_release_next_picture` calls performed so far. -/
  slotReleases : Nat
deriving DecidableEq, Repr

inductive SessionEvent where
  | dropInput
  | dropOutput
  | acquireImage
  | dropImage
deriving DecidableEq, Repr

/-- One lifecycle event.  `dropInput`/`dropOutput` run `Rc::drop`, which
decrements the strong count and, at zero, runs `DecoderContext::drop`
(freeing the non-null handle).  `acquireImage` is a successful
`next_picture` call (requires the output half alive and not currently
borrowed by an `Image`); `dropImage` runs `Image::drop`, which performs one
`de265_release_next_picture` call. -/
def SessionState.step (s : SessionState) : SessionEvent → Option SessionState
  | .dropInput =>
      if s.inputAlive then
        some { s with
          inputAlive := false
          refcount := s.refcount - 1
          handleFreed :=
            if s.refcount - 1 = 0 then s.handleFreed + 1 else s.handleFreed }
      else none
  | .dropOutput =>
      if s.outputAlive = true ∧ s.liveImages = 0 then
        some { s with
          outputAlive := false
          refcount := s.refcount - 1
          handleFreed :=
            if s.refcount - 1 = 0 then s.handleFreed + 1 else s.handleFreed }
      else none
  | .acquireImage =>
      if s.outputAlive = true ∧ s.liveImages = 0 then
        some { s with liveImages := s.liveImages + 1 }
      else none
  | .dropImage =>
      if 0 < s.liveImages then
        some { s with
          liveImages := s.liveImages - 1
          slotReleases := s.slotReleases + 1 }
      else none

/-- The state right after a successful `new_decoder` call: both halves
alive, strong count 2, no images, no release or free calls yet. -/
def initSession : SessionState :=
  { inputAlive := true
    outputAlive := true
    liveImages := 0
    refcount := 2
    handleFreed := 0
    slotReleases := 0 }

/-- Run a sequence of lifecycle events; `none` if any event is rejected. -/
def runTrace : SessionState → List SessionEvent → Option SessionState
  | s, [] => some s
  | s, e :: rest =>
      match s.step e with
      | none => none
      | some s' => runTrace s' rest

/-! ## Session construction (src/decoder.rs, `new_decoder`) -/

/-- Wrapper around the non-null native decoder handle (`DecoderContext` of
src/decoder.rs); `inner` models the pointer value. -/
structure DecoderContext where
  inner : Nat
deriving DecidableEq, Repr

structure DecoderInput where
  context : DecoderContext
deriving DecidableEq, Repr

structure DecoderOutput where
  context : DecoderContext
deriving DecidableEq, Repr

/-- Function `new_decoder` of src/decoder.rs.  `allocResult` is the value
returned by the native `de265_new_decoder` call (`none` models the null
pointer).  A null handle yields `ErrorLibraryInitializationFailed`;
otherwise one shared context is built and handed to both session halves. -/
def new_decoder (allocResult : Option Nat) :
    Except DeError (DecoderInput × DecoderOutput) :=
  match allocResult with
  | none => .error .ErrorLibraryInitializationFailed
  | some ptr => .ok ({ context := ⟨ptr⟩ }, { context := ⟨ptr⟩ })

/-! ## Image accessors (src/image.rs)

A `NativeImage` models the raw values the native accessors return for one
decoded picture: each `...Raw` field is the C `int` (or pointer) the
corresponding `de265_get_image_*` call produces.  `planeRaw` models
`de265_get_image_plane`: `none` is a null plane pointer; otherwise it gives
the stride out-parameter and the bytes of memory at the plane pointer. -/

inductive Channel where
  | Y
  | Cb
  | Cr
deriving DecidableEq, Repr

/-- Method `Channel::index` of src/image.rs. -/
def Channel.index : Channel → Int
  | .Y => 0
  | .Cb => 1
  | .Cr => 2

structure NativeImage where
  widthRaw : Channel → Int
  heightRaw : Channel → Int
  bitsPerPixelRaw : Channel → Int
  planeRaw : Channel → Option (Int × (Nat → Nat))
  userDataRaw : Nat
  ptsRaw : Int
  fullRangeRaw : Int
  colourPrimariesRaw : Int
  transferCharacteristicsRaw : Int
  matrixCoefficientsRaw : Int
  nalUnitTypeRaw : Int
  nalUnitNameRaw : Option String
  nalLayerIdRaw : Int
  nalTemporalIdRaw : Int

/-- Struct `NalHeader` of src/image.rs (`u8` fields as `Nat`). -/
structure NalHeader where
  unit_type : Nat
  unit_name : String
  layer_id : Nat
  temporal_id : Nat
deriving DecidableEq, Repr

/-- Function `c_int_to_u8` of src/image.rs: `value.max(0).min(255) as u8`. -/
def c_int_to_u8 (value : Int) : Nat :=
  (min (max value 0) 255).toNat

/-- The `Image` view of src/image.rs over one decoded picture. -/
structure Image where
  inner : NativeImage

/-- Method `Image::width`: `value.max(0) as u32`. -/
def Image.width (img : Image) (channel : Channel) : Nat :=
  (max (img.inner.widthRaw channel) 0).toNat

/-- Method `Image::height`: `value.max(0) as u32`. -/
def Image.height (img : Image) (channel : Channel) : Nat :=
  (max (img.inner.heightRaw channel) 0).toNat

/-- Method `Image::bits_per_pixel`: `value.max(0) as u32`. -/
def Image.bits_per_pixel (img : Image) (channel : Channel) : Nat :=
  (max (img.inner.bitsPerPixelRaw channel) 0).toNat

/-- Method `Image::plane` of src/image.rs: a null buffer pointer yields
`(&[], 0)`; otherwise the stride is clamped to `≥ 0` and the returned slice
is `slice::from_raw_parts(buf, stride * height)`, modelled as the first
`stride * height` bytes of the plane memory. -/
def Image.plane (img : Image) (channel : Channel) : List Nat × Nat :=
  match img.inner.planeRaw channel with
  | none => ([], 0)
  | some (strideRaw, mem) =>
      let stride := (max strideRaw 0).toNat
      let size := stride * img.height channel
      ((List.range size).map mem, stride)

/-- Method `Image::user_data`: reads the stored `void*` and casts it to
`usize` (both 64 bits wide, so the cast preserves the value). -/
def Image.user_data (img : Image) : Nat :=
  img.inner.userDataRaw

/-- Method `Image::pts`. -/
def Image.pts (img : Image) : Int :=
  img.inner.ptsRaw

/-- Method `Image::nal_header` of src/image.rs: the three `c_int`
out-parameters go through `c_int_to_u8`; a null name pointer becomes the
empty C string. -/
def Image.nal_header (img : Image) : NalHeader :=
  { unit_type := c_int_to_u8 img.inner.nalUnitTypeRaw
    unit_name := img.inner.nalUnitNameRaw.getD ""
    layer_id := c_int_to_u8 img.inner.nalLayerIdRaw
    temporal_id := c_int_to_u8 img.inner.nalTemporalIdRaw }

/-- Method `Image::full_range`: `value != 0`. -/
def Image.full_range (img : Image) : Bool :=
  img.inner.fullRangeRaw ≠ 0

/-- Method `Image::colour_primaries`. -/
def Image.colour_primaries (img : Image) : Nat :=
  c_int_to_u8 img.inner.colourPrimariesRaw

/-- Method `Image::transfer_characteristics`. -/
def Image.transfer_characteristics (img : Image) : Nat :=
  c_int_to_u8 img.inner.transferCharacteristicsRaw

/-- Method `Image::matrix_coefficients`. -/
def Image.matrix_coefficients (img : Image) : Nat :=
  c_int_to_u8 img.inner.matrixCoefficientsRaw

/-! ## Decoder input introspection (src/decoder.rs)

The raw `c_int` values the native introspection calls return on the
current decoder state. -/

structure NativeDecoderReadings where
  bytesPendingRaw : Int
  nalUnitsPendingRaw : Int
  highestTidRaw : Int
  currentTidRaw : Int
  /-- Return value of `de265_change_framerate` as a function of the
  `more_vs_less` argument actually passed to the native call. -/
  changeFramerateRaw : Int → Int

/-- Method `DecoderInput::number_of_input_bytes_pending`: `value.max(0) as usize`. -/
def number_of_input_bytes_pending (d : NativeDecoderReadings) : Nat :=
  (max d.bytesPendingRaw 0).toNat

/-- Method `DecoderInput::number_of_nal_units_pending`: `value.max(0) as usize`. -/
def number_of_nal_units_pending (d : NativeDecoderReadings) : Nat :=
  (max d.nalUnitsPendingRaw 0).toNat

/-- Method `DecoderInput::highest_tid`: `value.max(0) as u32`. -/
def highest_tid (d : NativeDecoderReadings) : Nat :=
  (max d.highestTidRaw 0).toNat

/-- Method `DecoderInput::current_tid`: `value.max(0) as u32`. -/
def current_tid (d : NativeDecoderReadings) : Nat :=
  (max d.currentTidRaw 0).toNat

/-- Rust `more_vs_less.clamp(-1, 1)` on an `i8`. -/
def clampMoreVsLess (x : Int) : Int :=
  min (max x (-1)) 1

/-- Method `DecoderInput::change_framerate` of src/decoder.rs: clamps the
argument into `[-1, 1]`, passes it to `de265_change_framerate`, and clamps
the returned ratio with `.max(0) as u32`. -/
def change_framerate (d : NativeDecoderReadings) (more_vs_less : Int) : Nat :=
  (max (d.changeFramerateRaw (clampMoreVsLess more_vs_less)) 0).toNat

/-! ## Engine pipeline model (external collaborator)

The decoded-picture buffer and the input queue live inside the native
engine; the spec describes their behaviour, so they are modelled from the
spec here and the wrapper methods of src/decoder.rs are embedded on top. -/

/-- One pushed NAL record: the bytes plus the pts and opaque tag attached
by the `push_data`/`push_nal` call that introduced it. -/
structure PushedNal where
  data : List Nat
  pts : Int
  user_data : Nat

/-- Modelled from the spec: the engine state visible to this layer — the
pending input queue of NAL records and the decoded-picture buffer. -/
structure EngineState where
  inputQueue : List PushedNal
  pictureBuffer : List NativeImage

/-- Modelled from the spec: `de265_push_data` appends the pushed bytes to
the engine's input queue, attaching the pts and the opaque tag to the NAL
units introduced by this call; it decodes nothing.  The wrapper
`DecoderInput::push_data` passes `data`, `pts` and `user_data` to the
native call unchanged (the `usize` to `void*` cast preserves the value). -/
def de265_push_data (s : EngineState) (data : List Nat) (pts : Int)
    (user_data : Nat) : EngineState :=
  { s with inputQueue :=
      s.inputQueue ++ [{ data := data, pts := pts, user_data := user_data }] }

/-- Modelled from the spec: a picture decoded from a NAL unit carries the
pts and the opaque tag of that NAL; `pixels` is the reconstruction outcome
produced by the decoding algorithms outside this layer's scope. -/
def engineDecodeNal (nal : PushedNal) (pixels : NativeImage) : NativeImage :=
  { pixels with userDataRaw := nal.user_data, ptsRaw := nal.pts }

/-- Modelled from the spec: `de265_peek_next_picture` returns the next
picture of the decoded-picture buffer, or the null pointer when the buffer
is empty; it performs no decoding and does not modify the buffer. -/
def de265_peek_next_picture (s : EngineState) : Option NativeImage :=
  s.pictureBuffer.head?

/-- Method `DecoderOutput::next_picture` of src/decoder.rs: wraps the peek
call, mapping the null pointer to `None` and a non-null picture pointer to
`Some(Image)`.  The engine state is threaded explicitly; the method makes
no call that changes it. -/
def next_picture (s : EngineState) : Option Image × EngineState :=
  ((de265_peek_next_picture s).map (fun p => Image.mk p), s)

/-! ## Sample values used by the witness theorems -/

/-- A concrete native picture: 316×240 4:2:0 luma plane with stride 320,
as in the crate's integration test. -/
def sampleNativeImage : NativeImage :=
  { widthRaw := fun c => match c with | .Y => 316 | _ => 158
    heightRaw := fun c => match c with | .Y => 240 | _ => 120
    bitsPerPixelRaw := fun _ => 8
    planeRaw := fun c => match c with
      | .Y => some (320, fun _ => 0)
      | _ => none
    userDataRaw := 0
    ptsRaw := 0
    fullRangeRaw := 0
    colourPrimariesRaw := 2
    transferCharacteristicsRaw := 2
    matrixCoefficientsRaw := 2
    nalUnitTypeRaw := 19
    nalUnitNameRaw := none
    nalLayerIdRaw := 0
    nalTemporalIdRaw := 0 }

/-- Concrete decoder readings for the witness theorems. -/
def sampleReadings : NativeDecoderReadings :=
  { bytesPendingRaw := 1024
    nalUnitsPendingRaw := -3
    highestTidRaw := 2
    currentTidRaw := -1
    changeFramerateRaw := fun x => 100 * x }

/-- Invariant tying the `Rc` strong count to the set of live session
halves: the count is the number of live halves, the handle has been freed
exactly once as soon as the count reaches zero, and a live `Image` keeps
the output half alive (it borrows through it). -/
def SessionInv (s : SessionState) : Prop :=
  s.refcount = (if s.inputAlive then 1 else 0) + (if s.outputAlive then 1 else 0)
  ∧ s.handleFreed = (if s.refcount = 0 then 1 else 0)
  ∧ (0 < s.liveImages → s.outputAlive = true)

theorem step_preserves_inv {s s' : SessionState} {e : SessionEvent}
    (hInv : SessionInv s) (h : s.step e = some s') : SessionInv s' := by
  obtain ⟨h1, h2, h3⟩ := hInv
  unfold SessionInv
  cases e <;>
    simp only [SessionState.step] at h <;>
    split at h <;>
    first
      | exact Option.noConfusion h
      | (injection h with h
         subst h
         cases hia : s.inputAlive <;> cases hoa : s.outputAlive <;>
           simp_all)

theorem runTrace_inv (tr : List SessionEvent) :
    ∀ s₀ s, SessionInv s₀ → runTrace s₀ tr = some s → SessionInv s := by
  induction tr with
  | nil =>
      intro s₀ s h hrun
      simp only [runTrace, Option.some.injEq] at hrun
      exact hrun ▸ h
  | cons e rest ih =>
      intro s₀ s h hrun
      simp only [runTrace] at hrun
      cases he : s₀.step e with
      | none => rw [he] at hrun; exact absurd hrun (by simp)
      | some s₁ =>
          rw [he] at hrun
          exact ih s₁ s (step_preserves_inv h he) hrun

theorem step_counts {s s' : SessionState} {e : SessionEvent}
    (h : s.step e = some s') :
    s'.slotReleases = s.slotReleases + (if e = .dropImage then 1 else 0)
    ∧ s'.liveImages + (if e = .dropImage then 1 else 0)
      = s.liveImages + (if e = .acquireImage then 1 else 0) := by
  cases e <;>
    simp only [SessionState.step] at h <;>
    split at h <;>
    first
      | exact Option.noConfusion h
      | (injection h with h
         subst h
         first
           | (simp; omega)
           | simp)

theorem runTrace_counts (tr : List SessionEvent) :
    ∀ s₀ s, runTrace s₀ tr = some s →
    s.slotReleases = s₀.slotReleases + tr.count .dropImage
    ∧ s.liveImages + tr.count .dropImage
      = s₀.liveImages + tr.count .acquireImage := by
  induction tr with
  | nil =>
      intro s₀ s hrun
      simp only [runTrace, Option.some.injEq] at hrun
      subst hrun
      simp
  | cons e rest ih =>
      intro s₀ s hrun
      simp only [runTrace] at hrun
      cases he : s₀.step e with
      | none => rw [he] at hrun; exact absurd hrun (by simp)
      | some s₁ =>
          rw [he] at hrun
          have hstep := step_counts he
          have hrest := ih s₁ s hrun
          cases e <;> simp_all [List.count_cons] <;> omega

/-- C1: for every session created by `new_decoder`, the native decoder
handle is released exactly once, and only when both the `DecoderInput` and
the `DecoderOutput` handle (and every `Image` borrowing the context) have
been dropped; dropping one session half alone never releases the handle
and never invalidates the other half (the context stays referenced while
either half is alive). -/
theorem handle_released_exactly_once (tr : List SessionEvent)
    (s : SessionState) (h : runTrace initSession tr = some s) :
    s.handleFreed ≤ 1
    ∧ (s.handleFreed = 1 ↔ s.inputAlive = false ∧ s.outputAlive = false)
    ∧ (s.inputAlive = true ∨ s.outputAlive = true →
        s.handleFreed = 0 ∧ 1 ≤ s.refcount)
    ∧ (0 < s.liveImages → s.handleFreed = 0 ∧ s.outputAlive = true) := by
  have hInv : SessionInv s :=
    runTrace_inv tr initSession s (by simp [SessionInv, initSession]) h
  obtain ⟨h1, h2, h3⟩ := hInv
  cases hia : s.inputAlive <;> cases hoa : s.outputAlive <;>
    simp_all

/-- Witness for C1 at the concrete trace
`[acquireImage, dropImage, dropInput, dropOutput]`: the final state has
freed the handle exactly once. -/
theorem handle_released_exactly_once_witness :
    ({ inputAlive := false, outputAlive := false, liveImages := 0,
       refcount := 0, handleFreed := 1, slotReleases := 1 } :
      SessionState).handleFreed ≤ 1 :=
  (handle_released_exactly_once
    [.acquireImage, .dropImage, .dropInput, .dropOutput] _ (by decide)).1

/-- C2: every `Image` releases its slot in the decoded-picture buffer
exactly once, at drop time and not before: along every valid lifecycle
trace the number of `de265_release_next_picture` calls equals the number
of `Image` drops, and once every obtained `Image` has been dropped it
equals the number of `Image`s obtained — no slot is released twice and
none is leaked. -/
theorem image_slot_released_exactly_once (tr : List SessionEvent)
    (s : SessionState) (h : runTrace initSession tr = some s) :
    s.slotReleases = tr.count .dropImage
    ∧ s.liveImages + tr.count .dropImage = tr.count .acquireImage
    ∧ (s.liveImages = 0 → s.slotReleases = tr.count .acquireImage) := by
  have hc := runTrace_counts tr initSession s h
  simp only [initSession] at hc
  obtain ⟨hc1, hc2⟩ := hc
  refine ⟨by omega, by omega, fun h0 => by omega⟩

/-- Witness for C2 at the concrete trace acquiring and dropping two
images: exactly two release calls are made. -/
theorem image_slot_released_exactly_once_witness :
    ({ inputAlive := true, outputAlive := true, liveImages := 0,
       refcount := 2, handleFreed := 0, slotReleases := 2 } :
      SessionState).slotReleases
      = ([.acquireImage, .dropImage, .acquireImage, .dropImage] :
          List SessionEvent).count .dropImage :=
  (image_slot_released_exactly_once
    [.acquireImage, .dropImage, .acquireImage, .dropImage] _ (by decide)).1

set_option maxHeartbeats 1600000 in
theorem from_raw_ok_iff (raw : Nat) :
    DeError.from_raw raw = .ok () ↔ raw = DE265_OK := by
  unfold DeError.from_raw DE265_OK
  split <;> simp_all

set_option maxHeartbeats 1600000 in
theorem from_raw_retryable_iff (raw : Nat) (e : DeError)
    (h : DeError.from_raw raw = .error e) :
    e.retryableForDecode = true
    ↔ raw = DE265_ERROR_IMAGE_BUFFER_FULL
      ∨ raw = DE265_ERROR_WAITING_FOR_INPUT_DATA := by
  unfold DE265_ERROR_IMAGE_BUFFER_FULL DE265_ERROR_WAITING_FOR_INPUT_DATA
  unfold DeError.from_raw at h
  split at h <;>
    first
      | exact Except.noConfusion h
      | (injection h with h
         subst h
         simp_all [DeError.retryableForDecode])

set_option maxHeartbeats 1600000 in
/-- C3: `decode` returns `Ok(Done)` exactly when the native decode step
succeeds (`DE265_OK`) and reports no images available (`more ≤ 0`),
`Ok(HasImagesInBuffer)` exactly when it succeeds and reports images
available (`more > 0`), and otherwise returns the error mapped through
`DeError::from_raw`; among the errors, exactly `ErrorImageBufferFull` and
`ErrorWaitingForInputData` (status codes 7 and 11) are the retryable kinds
the caller loops on. -/
theorem decode_result_classification (status : Nat) (more : Int) :
    (decode status more = .ok .Done ↔ status = DE265_OK ∧ more ≤ 0)
    ∧ (decode status more = .ok .HasImagesInBuffer
        ↔ status = DE265_OK ∧ 0 < more)
    ∧ (∀ e : DeError,
        decode status more = .error e ↔ DeError.from_raw status = .error e)
    ∧ (∀ e : DeError, decode status more = .error e →
        (e.retryableForDecode = true
          ↔ status = DE265_ERROR_IMAGE_BUFFER_FULL
            ∨ status = DE265_ERROR_WAITING_FOR_INPUT_DATA)) := by
  by_cases h0 : status = DE265_OK
  · unfold DE265_OK at h0
    subst h0
    have hfr : DeError.from_raw 0 = .ok () := rfl
    have hd : decode 0 more
        = .ok (if 0 < more then DecodeResult.HasImagesInBuffer else .Done) := by
      unfold decode
      rw [hfr]
      rfl
    refine ⟨?_, ?_, fun e => ?_, fun e he => ?_⟩
    · rw [hd]
      by_cases hm : 0 < more <;> simp [hm, DE265_OK] <;> try omega
    · rw [hd]
      by_cases hm : 0 < more <;> simp [hm, DE265_OK] <;> try omega
    · rw [hd, hfr]
      simp
    · rw [hd] at he
      exact Except.noConfusion he
  · obtain ⟨e, hfr⟩ : ∃ e, DeError.from_raw status = .error e := by
      cases hfr : DeError.from_raw status with
      | ok u =>
          cases u
          exact absurd ((from_raw_ok_iff status).mp hfr) h0
      | error e => exact ⟨e, rfl⟩
    have hd : decode status more = .error e := by
      unfold decode
      rw [hfr]
      rfl
    refine ⟨by simp [hd, h0], by simp [hd, h0], fun e2 => by simp [hd, hfr],
      fun e2 he2 => ?_⟩
    rw [hd] at he2
    injection he2 with he2
    subst he2
    exact from_raw_retryable_iff status e hfr

/-- Witness for C3: success with and without buffered images, and the
retryable designation of `ErrorImageBufferFull` at status code 7. -/
theorem decode_result_classification_witness :
    decode 0 0 = .ok .Done
    ∧ decode 0 1 = .ok .HasImagesInBuffer
    ∧ (DeError.ErrorImageBufferFull.retryableForDecode = true
        ↔ (7 = DE265_ERROR_IMAGE_BUFFER_FULL
            ∨ 7 = DE265_ERROR_WAITING_FOR_INPUT_DATA)) :=
  ⟨((decode_result_classification 0 0).1).mpr (by decide),
   ((decode_result_classification 0 1).2.1).mpr (by decide),
   (decode_result_classification 7 1).2.2.2 .ErrorImageBufferFull rfl⟩

set_option maxHeartbeats 1600000 in
/-- C4: `DeError::from_raw` is total on native status codes: it returns
`Ok(())` if and only if the code is `DE265_OK`; every other code returns
`Err`, with a named variant (never the `Unknown` fallback) for every code
of the closed mapped set, and with `Unknown(code)` carrying the unmapped
code otherwise — no status code is swallowed. -/
theorem from_raw_total_classification (raw : Nat) :
    (DeError.from_raw raw = .ok () ↔ raw = DE265_OK)
    ∧ (raw ≠ DE265_OK → ∃ e : DeError, DeError.from_raw raw = .error e)
    ∧ (raw ∉ DE265_OK :: mappedErrorCodes →
        DeError.from_raw raw = .error (.Unknown raw))
    ∧ (raw ∈ mappedErrorCodes →
        ∃ e : DeError, DeError.from_raw raw = .error e
          ∧ ∀ c : Nat, e ≠ .Unknown c) := by
  refine ⟨from_raw_ok_iff raw, ?_, ?_, ?_⟩
  · intro hne
    unfold DE265_OK at hne
    unfold DeError.from_raw
    split <;>
      first
        | exact ⟨_, rfl⟩
        | (exfalso; omega)
  · intro hmem
    simp only [List.mem_cons, not_or, DE265_OK, mappedErrorCodes,
      List.not_mem_nil] at hmem
    unfold DeError.from_raw
    split <;>
      first
        | rfl
        | (exfalso; omega)
  · intro hmem
    simp only [mappedErrorCodes, List.mem_cons, List.not_mem_nil,
      or_false] at hmem
    rcases hmem with rfl | rfl | rfl | rfl | rfl | rfl | rfl | rfl | rfl |
      rfl | rfl | rfl | rfl | rfl | rfl | rfl | rfl | rfl | rfl | rfl |
      rfl | rfl | rfl | rfl | rfl | rfl | rfl | rfl | rfl | rfl | rfl |
      rfl | rfl | rfl | rfl | rfl | rfl | rfl | rfl | rfl | rfl | rfl |
      rfl | rfl | rfl | rfl | rfl | rfl | rfl | rfl | rfl <;>
      exact ⟨_, rfl, fun c => by simp⟩

/-- Witness for C4: an unmapped code goes to the `Unknown` fallback, and
the mapped code 7 goes to a named variant. -/
theorem from_raw_total_classification_witness :
    DeError.from_raw 9999 = .error (.Unknown 9999)
    ∧ ∃ e : DeError, DeError.from_raw 7 = .error e
        ∧ ∀ c : Nat, e ≠ .Unknown c :=
  ⟨(from_raw_total_classification 9999).2.2.1 (by decide),
   (from_raw_total_classification 7).2.2.2 (by decide)⟩

/-- C5: `next_picture` on a `DecoderOutput` whose decoded-picture buffer
is empty returns `None` — and only then; its result type is `Option`, so
it can never return an error, it leaves the engine state unchanged (it
only inspects the buffer, triggering no decoding), and any picture it does
return comes from the buffer. -/
theorem next_picture_empty_buffer (s : EngineState) :
    ((next_picture s).1 = none ↔ s.pictureBuffer = [])
    ∧ (next_picture s).2 = s
    ∧ (∀ img : Image, (next_picture s).1 = some img →
        img.inner ∈ s.pictureBuffer) := by
  obtain ⟨q, buf⟩ := s
  refine ⟨?_, rfl, ?_⟩
  · cases buf <;> simp [next_picture, de265_peek_next_picture]
  · intro img h
    cases buf with
    | nil =>
        exact absurd h (by simp [next_picture, de265_peek_next_picture])
    | cons hd tl =>
        simp only [next_picture, de265_peek_next_picture, List.head?,
          Option.map_some] at h
        injection h with h
        subst h
        simp

/-- Witness for C5: the empty buffer yields `None` and an unchanged
state. -/
theorem next_picture_empty_buffer_witness :
    (next_picture ⟨[], []⟩).1 = none
    ∧ (next_picture ⟨[], []⟩).2 = (⟨[], []⟩ : EngineState) :=
  ⟨(next_picture_empty_buffer ⟨[], []⟩).1.mpr rfl,
   (next_picture_empty_buffer ⟨[], []⟩).2.1⟩

/-- C6: session construction fails with `ErrorLibraryInitializationFailed`
if and only if the native handle allocation returned null, and no other
error is possible; on success it returns an Input/Output pair sharing
exactly one context, which wraps the allocated handle. -/
theorem new_decoder_classification (allocResult : Option Nat) :
    (new_decoder allocResult = .error .ErrorLibraryInitializationFailed
      ↔ allocResult = none)
    ∧ (∀ e : DeError, new_decoder allocResult = .error e →
        e = .ErrorLibraryInitializationFailed)
    ∧ (∀ ptr : Nat, allocResult = some ptr →
        ∃ inp : DecoderInput, ∃ outp : DecoderOutput,
          new_decoder allocResult = .ok (inp, outp)
          ∧ inp.context = outp.context
          ∧ inp.context.inner = ptr) := by
  cases allocResult with
  | none => simp [new_decoder]
  | some ptr =>
      refine ⟨by simp [new_decoder], by simp [new_decoder], ?_⟩
      intro p hp
      injection hp with hp
      subst hp
      exact ⟨⟨⟨ptr⟩⟩, ⟨⟨ptr⟩⟩, rfl, rfl, rfl⟩

/-- Witness for C6: a null allocation fails with the documented error and
a non-null allocation yields a pair sharing one context. -/
theorem new_decoder_classification_witness :
    new_decoder none = .error .ErrorLibraryInitializationFailed
    ∧ ∃ inp : DecoderInput, ∃ outp : DecoderOutput,
        new_decoder (some 1) = .ok (inp, outp)
        ∧ inp.context = outp.context
        ∧ inp.context.inner = 1 :=
  ⟨(new_decoder_classification none).1.mpr rfl,
   (new_decoder_classification (some 1)).2.2 1 rfl⟩

/-- C7: for every `Image` and channel, `plane(channel)` returns a buffer
whose length equals stride × height for that channel together with that
stride; when the channel's plane is unavailable (null buffer pointer) it
returns an empty buffer and stride zero rather than an error. -/
theorem plane_buffer_length (img : Image) (channel : Channel) :
    (img.plane channel).1.length
      = (img.plane channel).2 * img.height channel
    ∧ (img.inner.planeRaw channel = none → img.plane channel = ([], 0)) := by
  cases h : img.inner.planeRaw channel with
  | none => simp [Image.plane, h]
  | some v =>
      obtain ⟨strideRaw, mem⟩ := v
      simp [Image.plane, h]

/-- Witness for C7 at the sample 316×240 image: the luma plane has length
stride × height and the absent chroma plane yields `([], 0)`. -/
theorem plane_buffer_length_witness :
    ((Image.mk sampleNativeImage).plane Channel.Y).1.length
      = ((Image.mk sampleNativeImage).plane Channel.Y).2
        * (Image.mk sampleNativeImage).height Channel.Y
    ∧ (Image.mk sampleNativeImage).plane Channel.Cb = ([], 0) :=
  ⟨(plane_buffer_length (Image.mk sampleNativeImage) Channel.Y).1,
   (plane_buffer_length (Image.mk sampleNativeImage) Channel.Cb).2 rfl⟩

/-- C8: `push_data` appends exactly one NAL record carrying the opaque tag
it was given (the wrapper passes the tag through unchanged), and reading
`user_data` from the `Image` decoded from the NAL that this call
introduced returns that same tag; the engine's tag propagation is
modelled from the spec. -/
theorem user_data_round_trip (s : EngineState) (data : List Nat)
    (pts : Int) (user_data : Nat) (pixels : NativeImage) :
    (de265_push_data s data pts user_data).inputQueue
      = s.inputQueue
        ++ [{ data := data, pts := pts, user_data := user_data }]
    ∧ (∀ nal : PushedNal,
        nal ∈ (de265_push_data s data pts user_data).inputQueue →
        nal ∉ s.inputQueue →
        Image.user_data (Image.mk (engineDecodeNal nal pixels))
          = user_data) := by
  refine ⟨rfl, fun nal hmem hnew => ?_⟩
  simp only [de265_push_data, List.mem_append, List.mem_singleton] at hmem
  rcases hmem with hold | rfl
  · exact absurd hold hnew
  · rfl

/-- Witness for C8: pushing one NAL with tag 42 into an empty session and
decoding it yields an image whose user data reads back 42. -/
theorem user_data_round_trip_witness :
    Image.user_data (Image.mk (engineDecodeNal
      { data := [0], pts := 5, user_data := 42 } sampleNativeImage)) = 42 :=
  (user_data_round_trip ⟨[], []⟩ [0] 5 42 sampleNativeImage).2
    { data := [0], pts := 5, user_data := 42 }
    (by simp [de265_push_data]) (by simp)

theorem c_int_to_u8_clamps (v : Int) :
    c_int_to_u8 v ≤ 255
    ∧ (v < 0 → c_int_to_u8 v = 0)
    ∧ (0 ≤ v → v ≤ 255 → (c_int_to_u8 v : Int) = v) := by
  unfold c_int_to_u8
  omega

/-- C9: every conceptually-unsigned numeric value received from the
native layer as a signed integer — image width, height, bits per pixel,
plane stride, pending byte and NAL counts, highest/current TID, the
NAL-header fields, and the colour metadata — is clamped to a minimum of 0
(negative values never wrap to a huge unsigned value, they become 0;
non-negative values pass through unchanged), and the `u8` fields are
additionally clamped to at most 255. -/
theorem signed_values_clamped (img : Image) (d : NativeDecoderReadings)
    (channel : Channel) :
    ((img.inner.widthRaw channel < 0 → img.width channel = 0)
      ∧ (0 ≤ img.inner.widthRaw channel →
          (img.width channel : Int) = img.inner.widthRaw channel))
    ∧ ((img.inner.heightRaw channel < 0 → img.height channel = 0)
      ∧ (0 ≤ img.inner.heightRaw channel →
          (img.height channel : Int) = img.inner.heightRaw channel))
    ∧ ((img.inner.bitsPerPixelRaw channel < 0 →
          img.bits_per_pixel channel = 0)
      ∧ (0 ≤ img.inner.bitsPerPixelRaw channel →
          (img.bits_per_pixel channel : Int)
            = img.inner.bitsPerPixelRaw channel))
    ∧ (∀ strideRaw : Int, ∀ mem : Nat → Nat,
        img.inner.planeRaw channel = some (strideRaw, mem) →
        (strideRaw < 0 → (img.plane channel).2 = 0)
        ∧ (0 ≤ strideRaw →
            ((img.plane channel).2 : Int) = strideRaw))
    ∧ ((d.bytesPendingRaw < 0 → number_of_input_bytes_pending d = 0)
      ∧ (0 ≤ d.bytesPendingRaw →
          (number_of_input_bytes_pending d : Int) = d.bytesPendingRaw))
    ∧ ((d.nalUnitsPendingRaw < 0 → number_of_nal_units_pending d = 0)
      ∧ (0 ≤ d.nalUnitsPendingRaw →
          (number_of_nal_units_pending d : Int) = d.nalUnitsPendingRaw))
    ∧ ((d.highestTidRaw < 0 → highest_tid d = 0)
      ∧ (0 ≤ d.highestTidRaw → (highest_tid d : Int) = d.highestTidRaw))
    ∧ ((d.currentTidRaw < 0 → current_tid d = 0)
      ∧ (0 ≤ d.currentTidRaw → (current_tid d : Int) = d.currentTidRaw))
    ∧ (img.nal_header.unit_type ≤ 255
      ∧ (img.inner.nalUnitTypeRaw < 0 → img.nal_header.unit_type = 0)
      ∧ (0 ≤ img.inner.nalUnitTypeRaw → img.inner.nalUnitTypeRaw ≤ 255 →
          (img.nal_header.unit_type : Int) = img.inner.nalUnitTypeRaw))
    ∧ (img.nal_header.layer_id ≤ 255
      ∧ (img.inner.nalLayerIdRaw < 0 → img.nal_header.layer_id = 0)
      ∧ (0 ≤ img.inner.nalLayerIdRaw → img.inner.nalLayerIdRaw ≤ 255 →
          (img.nal_header.layer_id : Int) = img.inner.nalLayerIdRaw))
    ∧ (img.nal_header.temporal_id ≤ 255
      ∧ (img.inner.nalTemporalIdRaw < 0 → img.nal_header.temporal_id = 0)
      ∧ (0 ≤ img.inner.nalTemporalIdRaw →
          img.inner.nalTemporalIdRaw ≤ 255 →
          (img.nal_header.temporal_id : Int) = img.inner.nalTemporalIdRaw))
    ∧ (img.colour_primaries ≤ 255
      ∧ (img.inner.colourPrimariesRaw < 0 → img.colour_primaries = 0)
      ∧ (0 ≤ img.inner.colourPrimariesRaw →
          img.inner.colourPrimariesRaw ≤ 255 →
          (img.colour_primaries : Int) = img.inner.colourPrimariesRaw))
    ∧ (img.transfer_characteristics ≤ 255
      ∧ (img.inner.transferCharacteristicsRaw < 0 →
          img.transfer_characteristics = 0)
      ∧ (0 ≤ img.inner.transferCharacteristicsRaw →
          img.inner.transferCharacteristicsRaw ≤ 255 →
          (img.transfer_characteristics : Int)
            = img.inner.transferCharacteristicsRaw))
    ∧ (img.matrix_coefficients ≤ 255
      ∧ (img.inner.matrixCoefficientsRaw < 0 →
          img.matrix_coefficients = 0)
      ∧ (0 ≤ img.inner.matrixCoefficientsRaw →
          img.inner.matrixCoefficientsRaw ≤ 255 →
          (img.matrix_coefficients : Int)
            = img.inner.matrixCoefficientsRaw)) := by
  refine ⟨?_, ?_, ?_, ?_, ?_, ?_, ?_, ?_, ?_, ?_, ?_, ?_, ?_, ?_⟩
  · unfold Image.width
    omega
  · unfold Image.height
    omega
  · unfold Image.bits_per_pixel
    omega
  · intro strideRaw mem h
    simp only [Image.plane, h]
    omega
  · unfold number_of_input_bytes_pending
    omega
  · unfold number_of_nal_units_pending
    omega
  · unfold highest_tid
    omega
  · unfold current_tid
    omega
  · exact c_int_to_u8_clamps img.inner.nalUnitTypeRaw
  · exact c_int_to_u8_clamps img.inner.nalLayerIdRaw
  · exact c_int_to_u8_clamps img.inner.nalTemporalIdRaw
  · exact c_int_to_u8_clamps img.inner.colourPrimariesRaw
  · exact c_int_to_u8_clamps img.inner.transferCharacteristicsRaw
  · exact c_int_to_u8_clamps img.inner.matrixCoefficientsRaw

/-- Witness for C9 at the sample readings: a negative pending-NAL count is
clamped to 0 and a positive pending-byte count passes through. -/
theorem signed_values_clamped_witness :
    number_of_nal_units_pending sampleReadings = 0
    ∧ (number_of_input_bytes_pending sampleReadings : Int) = 1024 := by
  have h := signed_values_clamped (Image.mk sampleNativeImage)
    sampleReadings Channel.Y
  exact ⟨h.2.2.2.2.2.1.1 (by decide), h.2.2.2.2.1.2 (by decide)⟩

/-- C10: for every argument `x`, `change_framerate(x)` behaves identically
to `change_framerate` on `x` clamped into `[-1, 1]` (the wrapper clamps the
argument before passing it to the engine), and its result is never
negative: a negative native return value is mapped to 0, a non-negative
one passes through. -/
theorem change_framerate_clamped_arg (d : NativeDecoderReadings)
    (x : Int) :
    change_framerate d x = change_framerate d (clampMoreVsLess x)
    ∧ (d.changeFramerateRaw (clampMoreVsLess x) < 0 →
        change_framerate d x = 0)
    ∧ (0 ≤ d.changeFramerateRaw (clampMoreVsLess x) →
        (change_framerate d x : Int)
          = d.changeFramerateRaw (clampMoreVsLess x)) := by
  have hidem : clampMoreVsLess (clampMoreVsLess x) = clampMoreVsLess x := by
    unfold clampMoreVsLess
    omega
  unfold change_framerate
  rw [hidem]
  exact ⟨rfl, by omega, by omega⟩

/-- Witness for C10: at argument 5 the engine sees the clamped value 1 and
the wrapper reports the engine's ratio 100 unchanged. -/
theorem change_framerate_clamped_arg_witness :
    change_framerate sampleReadings 5
      = change_framerate sampleReadings (clampMoreVsLess 5)
    ∧ (change_framerate sampleReadings 5 : Int)
        = sampleReadings.changeFramerateRaw (clampMoreVsLess 5) :=
  ⟨(change_framerate_clamped_arg sampleReadings 5).1,
   (change_framerate_clamped_arg sampleReadings 5).2.2 (by decide)⟩

end De265
